import Mathlib

/-!
# Verification of the canteen inventory and transaction core

Shallow embedding of the inventory / point-of-sale core of the
`kantin_sekolah` application.  Functions present in the sources
(`app.py`, `modules/utils.py`, `modules/barcode_handler.py`) are
translated directly.  The data-access layer `modules/data_handler.py`
is imported by `app.py` and `modules/__init__.py` but is absent from the
sources, so its operations (`add_product`, `reduce_stock`, `add_stock`,
`get_product_by_barcode`, `load_*`) are modelled from the specification;
each such definition is marked `Modelled from the spec:`.
-/

namespace Kantin

/-- One row of the product table, with the column names used throughout
`app.py` (`barcode_id`, `nama_produk`, `kategori`, `stok`, `harga_modal`,
`harga_jual`). -/
structure Product where
  barcode_id : String
  nama_produk : String
  kategori : String
  stok : Int
  harga_modal : Int
  harga_jual : Int
  deriving DecidableEq

/-- A sale timestamp (the `waktu` column), split into its date component
(`tanggal`, an abstract day index) and its time-of-day component (`jam`),
mirroring how `laporan_page` in `app.py` projects
`pd.to_datetime(df.waktu).dt.date`. -/
structure Waktu where
  tanggal : Int
  jam : Nat
  deriving DecidableEq

/-- One row of the transaction table (section 3 of the specification and
the columns `total_harga`, `keuntungan`, `waktu` used by `app.py`). -/
structure Transaction where
  barcode_id : String
  nama_produk : String
  jumlah : Int
  harga_satuan : Int
  total_harga : Int
  keuntungan : Int
  waktu : Waktu
  deriving DecidableEq

/-- The persistent state of the Record Store: the product table and the
transaction table. -/
structure State where
  products : List Product
  transactions : List Transaction
  deriving DecidableEq

/-- Domain error kinds of section 7 of the specification. -/
inductive ErrKind where
  | NotFound
  | DuplicateKey
  | InvalidInput
  | InvalidPrice
  | InsufficientStock
  deriving DecidableEq

/-- Success / failure descriptor returned by catalog and ledger
operations (the `result['success']` dictionaries of the Python code). -/
inductive OpOutcome where
  | success
  | failure (kind : ErrKind)
  deriving DecidableEq

/-- Result of a state-mutating operation: the new state plus the outcome. -/
structure StepResult where
  state : State
  outcome : OpOutcome
  deriving DecidableEq

/-- Modelled from the spec: `modules/data_handler.py` is missing from the
sources.  Section 4.2 specifies `get_by_barcode` as an exact-match lookup
returning the product or `None` on a miss. -/
def get_product_by_barcode (products : List Product) (id : String) : Option Product :=
  products.find? (fun p => p.barcode_id == id)

/-- Modelled from the spec: `reduce_stock` lives in the missing
`modules/data_handler.py`.  Section 4.3 specifies `sell`: look the product
up (`NotFound` on a miss); fail with `InsufficientStock` when
`quantity > stock` or `quantity <= 0`; otherwise decrement the stock of
the matching row, and append one transaction row with
`total_price = quantity * sell_price` and
`profit = quantity * (sell_price - cost_price)` at the current time.
`scan_page` in `app.py` passes the product's own `nama_produk` and
`harga_jual`, so the row is computed from the looked-up product. -/
def reduce_stock (st : State) (id : String) (q : Int) (now : Waktu) : StepResult :=
  match get_product_by_barcode st.products id with
  | none => ⟨st, .failure .NotFound⟩
  | some p =>
    if q > p.stok ∨ q ≤ 0 then ⟨st, .failure .InsufficientStock⟩
    else
      ⟨⟨st.products.map (fun r => if r.barcode_id == id then { r with stok := r.stok - q } else r),
        st.transactions ++ [⟨id, p.nama_produk, q, p.harga_jual, q * p.harga_jual,
          q * (p.harga_jual - p.harga_modal), now⟩]⟩,
       .success⟩

/-- Modelled from the spec: `add_stock` lives in the missing
`modules/data_handler.py`.  Section 4.2 specifies `restock`: `NotFound`
when the key is absent, `InvalidInput` when `amount <= 0`, otherwise
`stock += amount` on the matching row. -/
def add_stock (st : State) (id : String) (amount : Int) : StepResult :=
  match get_product_by_barcode st.products id with
  | none => ⟨st, .failure .NotFound⟩
  | some _ =>
    if amount ≤ 0 then ⟨st, .failure .InvalidInput⟩
    else
      ⟨⟨st.products.map (fun r => if r.barcode_id == id then { r with stok := r.stok + amount } else r),
        st.transactions⟩,
       .success⟩

/-- Modelled from the spec: `add_product` lives in the missing
`modules/data_handler.py`.  Section 4.2 specifies `add`: `DuplicateKey`
when the barcode is already taken, `InvalidPrice` when
`sell_price <= cost_price`, `InvalidInput` when name or barcode is empty,
and on success the new row is appended. -/
def add_product (st : State) (id nama kategori : String)
    (stok harga_modal harga_jual : Int) : StepResult :=
  if (get_product_by_barcode st.products id).isSome then ⟨st, .failure .DuplicateKey⟩
  else if harga_jual ≤ harga_modal then ⟨st, .failure .InvalidPrice⟩
  else if id = "" ∨ nama = "" then ⟨st, .failure .InvalidInput⟩
  else ⟨⟨st.products ++ [⟨id, nama, kategori, stok, harga_modal, harga_jual⟩],
        st.transactions⟩, .success⟩

/-- Python `str.strip()` as used by `validate_not_empty` in
`modules/utils.py`: drop whitespace from both ends of the character
list. -/
def strip (l : List Char) : List Char :=
  ((l.dropWhile Char.isWhitespace).reverse.dropWhile Char.isWhitespace).reverse

/-- `validate_not_empty` from `modules/utils.py`, restricted to the
string inputs produced by `st.text_input`:
`len(value.strip()) > 0`. -/
def validate_not_empty (s : String) : Bool :=
  decide (0 < (strip s.data).length)

/-- The add-product submit flow of `data_master_page` in `app.py`
(lines 266-283): both text fields must pass `validate_not_empty`; then
the sale price must be strictly greater than the cost price; only then is
`add_product` called, and on its success the barcode artifact generator
`gen` is invoked, its return value used for display only (the third
component of the result). -/
def data_master_submit (gen : String → String → Option String) (st : State)
    (id nama kategori : String) (stok harga_modal harga_jual : Int) :
    State × OpOutcome × Option String :=
  if validate_not_empty id && validate_not_empty nama then
    if harga_jual ≤ harga_modal then
      (st, .failure .InvalidPrice, none)
    else
      match add_product st id nama kategori stok harga_modal harga_jual with
      | ⟨st2, .success⟩ => (st2, .success, gen id nama)
      | ⟨st2, .failure k⟩ => (st2, .failure k, none)
  else
    (st, .failure .InvalidInput, none)

/-- The low-stock report of `app.py` (`dashboard_page` line 202 and the
sidebar of `main`, line 969): `products_df[products_df['stok'] < threshold]`
with the threshold written literally as 10 at both call sites. -/
def low_stock (products : List Product) (threshold : Int) : List Product :=
  products.filter (fun p => decide (p.stok < threshold))

/-- The report date filter of `laporan_page` in `app.py` (lines 744-746):
`tanggal = to_datetime(waktu).dt.date` and
`(tanggal >= start_date) & (tanggal <= end_date)`. -/
def filter_by_date_range (ts : List Transaction) (start_date end_date : Int) :
    List Transaction :=
  ts.filter (fun t => decide (start_date ≤ t.waktu.tanggal) && decide (t.waktu.tanggal ≤ end_date))

/-- Replace the time-of-day component of a transaction's timestamp,
leaving the date component untouched. -/
def set_jam (t : Transaction) (j : Nat) : Transaction :=
  { t with waktu := { t.waktu with jam := j } }

/-- `calculate_profit_margin` from `modules/utils.py` (lines 322-339):
return 0 when `harga_jual == 0`, otherwise
`(harga_jual - harga_modal) / harga_jual * 100`.  Numbers are embedded as
rationals. -/
def calculate_profit_margin (harga_jual harga_modal : ℚ) : ℚ :=
  if harga_jual = 0 then 0
  else (harga_jual - harga_modal) / harga_jual * 100

/-- The two dataset kinds of the Record Store (section 4.1). -/
inductive TableKind where
  | products
  | transactions
  deriving DecidableEq

/-- The fixed column schema per kind: the product columns are the ones
`app.py` reads, the transaction columns follow section 3 of the
specification and the `waktu` / `total_harga` / `keuntungan` columns
`app.py` reads. -/
def schema_columns : TableKind → List String
  | .products =>
      ["barcode_id", "nama_produk", "kategori", "stok", "harga_modal", "harga_jual"]
  | .transactions =>
      ["barcode_id", "nama_produk", "jumlah", "harga_satuan", "total_harga",
       "keuntungan", "waktu"]

/-- A raw backing table: the column header plus the data rows. -/
structure RawTable where
  columns : List String
  rows : List (List String)
  deriving DecidableEq

/-- The state of a backing file: absent, present with contents, or
failing at the I/O level. -/
inductive FileState where
  | missing
  | present (t : RawTable)
  | ioFailure
  deriving DecidableEq

/-- The one error class that an operation of the Record Store may raise
(section 7). -/
inductive StorageErr where
  | StorageFailure
  deriving DecidableEq

/-- Modelled from the spec: the `load_*` functions live in the missing
`modules/data_handler.py`.  Section 4.1 specifies `load(kind)`: a missing
backing file yields an empty table with the schema initialized (never an
error); an I/O failure is the one failing case. -/
def load (kind : TableKind) (fs : FileState) : Except StorageErr RawTable :=
  match fs with
  | .missing => .ok ⟨schema_columns kind, []⟩
  | .present t => .ok t
  | .ioFailure => .error .StorageFailure

/-- A dynamically-typed value reaching `validate_barcode_format`: a
string, Python `None`, or a number. -/
inductive PyValue where
  | str (s : String)
  | pyNone
  | num (n : Int)
  deriving DecidableEq

/-- `validate_barcode_format` from `modules/barcode_handler.py`
(lines 533-542): inside a try / except, `len(barcode_id) < 3` gives
False, a space character in the string gives False, otherwise True;
`len` raises on `None` and on numbers, and the except arm turns that
into False. -/
def validate_barcode_format : PyValue → Bool
  | .str s =>
      if s.data.length < 3 then false
      else if ' ' ∈ s.data then false
      else true
  | .pyNone => false
  | .num _ => false

/-- Helper: `find?` commutes with mapping a function that does not change
the value of the predicate. -/
theorem find?_map_pred (f : Product → Product) (pred : Product → Bool)
    (l : List Product) (hf : ∀ r, pred (f r) = pred r) :
    (l.map f).find? pred = (l.find? pred).map f := by
  induction l with
  | nil => rfl
  | cons a t ih =>
    by_cases h : pred a = true
    · rw [List.map_cons, List.find?_cons_of_pos _ ((hf a).trans h),
        List.find?_cons_of_pos _ h, Option.map_some']
    · have h' : ¬ pred (f a) = true := by rw [hf a]; exact h
      rw [List.map_cons, List.find?_cons_of_neg _ h', List.find?_cons_of_neg _ h, ih]

/-- Helper: the stock updater used by the ledger operations leaves the
barcode key of every row unchanged. -/
theorem updater_pred (id : String) (g : Product → Int) : ∀ r : Product,
    (((if r.barcode_id == id then { r with stok := g r } else r) : Product).barcode_id == id) =
      (r.barcode_id == id) := by
  intro r
  by_cases h : (r.barcode_id == id) = true
  · rw [if_pos h]
  · rw [if_neg h]

/-- C1: when the product with barcode `id` exists and `0 < q ≤ stock`, a
`sell(id, q)` succeeds, the product's stock drops by exactly `q`, and
exactly one transaction row is appended, with quantity `q`, total price
`q * sell_price`, and profit `q * (sell_price - cost_price)`. -/
theorem sell_success_postcondition (st : State) (id : String) (p : Product)
    (q : Int) (now : Waktu)
    (hp : get_product_by_barcode st.products id = some p)
    (hq0 : 0 < q) (hqs : q ≤ p.stok) :
    (reduce_stock st id q now).outcome = OpOutcome.success ∧
    get_product_by_barcode (reduce_stock st id q now).state.products id =
      some { p with stok := p.stok - q } ∧
    (reduce_stock st id q now).state.transactions =
      st.transactions ++
        [{ barcode_id := id, nama_produk := p.nama_produk, jumlah := q,
           harga_satuan := p.harga_jual, total_harga := q * p.harga_jual,
           keuntungan := q * (p.harga_jual - p.harga_modal), waktu := now }] := by
  have hcond : ¬ (q > p.stok ∨ q ≤ 0) := by omega
  have hp' : st.products.find? (fun r => r.barcode_id == id) = some p := hp
  have hbeq : (p.barcode_id == id) = true := by
    have h := List.find?_some hp'
    simpa using h
  have hred : reduce_stock st id q now =
      ⟨⟨st.products.map (fun r => if r.barcode_id == id then { r with stok := r.stok - q } else r),
        st.transactions ++ [⟨id, p.nama_produk, q, p.harga_jual, q * p.harga_jual,
          q * (p.harga_jual - p.harga_modal), now⟩]⟩,
       .success⟩ := by
    unfold reduce_stock
    rw [hp]
    simp only [if_neg hcond]
  refine ⟨by rw [hred], ?_, by rw [hred]⟩
  rw [hred]
  unfold get_product_by_barcode at hp ⊢
  rw [find?_map_pred _ _ _ (updater_pred id (fun r => r.stok - q)), hp,
    Option.map_some', if_pos hbeq]

/-- C1 witness: a concrete sale of 5 units from a stock of 50 at prices
2000 / 3000. -/
theorem sell_success_postcondition_witness :
    get_product_by_barcode [⟨"BRK001", "Aqua", "Minuman", 50, 2000, 3000⟩] "BRK001" =
      some ⟨"BRK001", "Aqua", "Minuman", 50, 2000, 3000⟩ ∧
    (0 : Int) < 5 ∧ (5 : Int) ≤ 50 ∧
    ((reduce_stock ⟨[⟨"BRK001", "Aqua", "Minuman", 50, 2000, 3000⟩], []⟩
        "BRK001" 5 ⟨0, 0⟩).outcome = OpOutcome.success ∧
      get_product_by_barcode
        (reduce_stock ⟨[⟨"BRK001", "Aqua", "Minuman", 50, 2000, 3000⟩], []⟩
          "BRK001" 5 ⟨0, 0⟩).state.products "BRK001" =
        some ⟨"BRK001", "Aqua", "Minuman", 45, 2000, 3000⟩ ∧
      (reduce_stock ⟨[⟨"BRK001", "Aqua", "Minuman", 50, 2000, 3000⟩], []⟩
        "BRK001" 5 ⟨0, 0⟩).state.transactions =
        [] ++ [⟨"BRK001", "Aqua", 5, 3000, 15000, 5000, ⟨0, 0⟩⟩]) :=
  ⟨by decide, by decide, by decide,
    sell_success_postcondition ⟨[⟨"BRK001", "Aqua", "Minuman", 50, 2000, 3000⟩], []⟩
      "BRK001" ⟨"BRK001", "Aqua", "Minuman", 50, 2000, 3000⟩ 5 ⟨0, 0⟩
      (by decide) (by decide) (by decide)⟩

/-- C2: when the product with barcode `id` exists and `q > stock` or
`q ≤ 0`, `sell(id, q)` fails with `InsufficientStock` and leaves both the
product table and the transaction table unchanged. -/
theorem sell_insufficient_stock_unchanged (st : State) (id : String) (p : Product)
    (q : Int) (now : Waktu)
    (hp : get_product_by_barcode st.products id = some p)
    (hq : q > p.stok ∨ q ≤ 0) :
    reduce_stock st id q now =
      ⟨st, OpOutcome.failure ErrKind.InsufficientStock⟩ := by
  unfold reduce_stock
  rw [hp]
  simp only [if_pos hq]

/-- C2 witness: selling 5 units from a stock of 3 fails and changes
nothing. -/
theorem sell_insufficient_stock_unchanged_witness :
    get_product_by_barcode [⟨"BRK001", "Aqua", "Minuman", 3, 2000, 3000⟩] "BRK001" =
      some ⟨"BRK001", "Aqua", "Minuman", 3, 2000, 3000⟩ ∧
    ((5 : Int) > 3 ∨ (5 : Int) ≤ 0) ∧
    reduce_stock ⟨[⟨"BRK001", "Aqua", "Minuman", 3, 2000, 3000⟩], []⟩ "BRK001" 5 ⟨0, 0⟩ =
      ⟨⟨[⟨"BRK001", "Aqua", "Minuman", 3, 2000, 3000⟩], []⟩,
        OpOutcome.failure ErrKind.InsufficientStock⟩ :=
  ⟨by decide, by decide,
    sell_insufficient_stock_unchanged ⟨[⟨"BRK001", "Aqua", "Minuman", 3, 2000, 3000⟩], []⟩
      "BRK001" ⟨"BRK001", "Aqua", "Minuman", 3, 2000, 3000⟩ 5 ⟨0, 0⟩
      (by decide) (by decide)⟩

/-- C3 counterexample: an add call with empty name and barcode and with
`sell_price = 3 ≤ 5 = cost_price` does not fail with `InvalidPrice` —
the submit flow of `data_master_page` checks `validate_not_empty` first
and reports `InvalidInput`. -/
theorem add_invalid_price_counterexample :
    (3 : Int) ≤ 5 ∧
    (data_master_submit (fun _ _ => none) ⟨[], []⟩ "" "" "Makanan" 0 5 3).2.1 =
      OpOutcome.failure ErrKind.InvalidInput ∧
    (data_master_submit (fun _ _ => none) ⟨[], []⟩ "" "" "Makanan" 0 5 3).2.1 ≠
      OpOutcome.failure ErrKind.InvalidPrice := by
  decide

/-- C3 amended: for every add call whose name and barcode pass
`validate_not_empty`, a `sell_price ≤ cost_price` fails with
`InvalidPrice` and the catalog (indeed the whole state) is exactly the
same afterward as before the call; with an empty name or barcode the call
fails with `InvalidInput` instead, still leaving the state unchanged. -/
theorem add_invalid_price_guard (gen : String → String → Option String)
    (st : State) (id nama kategori : String) (stok harga_modal harga_jual : Int)
    (hid : validate_not_empty id = true) (hnama : validate_not_empty nama = true)
    (hprice : harga_jual ≤ harga_modal) :
    data_master_submit gen st id nama kategori stok harga_modal harga_jual =
      (st, OpOutcome.failure ErrKind.InvalidPrice, none) := by
  unfold data_master_submit
  rw [hid, hnama]
  simp only [Bool.and_self, if_pos hprice, if_true]

/-- C3 witness: concrete non-empty fields with sale price 3 below cost
price 5. -/
theorem add_invalid_price_guard_witness :
    validate_not_empty "BRK001" = true ∧
    validate_not_empty "Aqua" = true ∧
    (3 : Int) ≤ 5 ∧
    data_master_submit (fun _ _ => none) ⟨[], []⟩ "BRK001" "Aqua" "Minuman" 0 5 3 =
      (⟨[], []⟩, OpOutcome.failure ErrKind.InvalidPrice, none) :=
  ⟨by decide, by decide, by decide,
    add_invalid_price_guard (fun _ _ => none) ⟨[], []⟩ "BRK001" "Aqua" "Minuman" 0 5 3
      (by decide) (by decide) (by decide)⟩

/-- C4: for a product that exists with non-negative stock and any
`n > 0`, `restock(id, n)` followed by `sell(id, n)` succeeds and returns
the product (in particular its stock) to its pre-restock value. -/
theorem restock_sell_roundtrip (st : State) (id : String) (p : Product)
    (n : Int) (now : Waktu)
    (hp : get_product_by_barcode st.products id = some p)
    (hn : 0 < n) (hs : 0 ≤ p.stok) :
    (reduce_stock (add_stock st id n).state id n now).outcome = OpOutcome.success ∧
    get_product_by_barcode
      (reduce_stock (add_stock st id n).state id n now).state.products id = some p := by
  have hp' : st.products.find? (fun r => r.barcode_id == id) = some p := hp
  have hbeq : (p.barcode_id == id) = true := by
    have h := List.find?_some hp'
    simpa using h
  have hst1 : (add_stock st id n).state =
      ⟨st.products.map (fun r => if r.barcode_id == id then { r with stok := r.stok + n } else r),
        st.transactions⟩ := by
    unfold add_stock
    rw [hp]
    simp only [if_neg (by omega : ¬ n ≤ 0)]
  have hlook1 : get_product_by_barcode (add_stock st id n).state.products id =
      some { p with stok := p.stok + n } := by
    rw [hst1]
    unfold get_product_by_barcode
    rw [find?_map_pred _ _ _ (updater_pred id (fun r => r.stok + n)), hp',
      Option.map_some', if_pos hbeq]
  have hcond : ¬ (n > ({ p with stok := p.stok + n } : Product).stok ∨ n ≤ 0) := by
    simp only []
    omega
  have hred : reduce_stock (add_stock st id n).state id n now =
      ⟨⟨(add_stock st id n).state.products.map
          (fun r => if r.barcode_id == id then { r with stok := r.stok - n } else r),
        (add_stock st id n).state.transactions ++
          [⟨id, p.nama_produk, n, p.harga_jual, n * p.harga_jual,
            n * (p.harga_jual - p.harga_modal), now⟩]⟩,
       .success⟩ := by
    unfold reduce_stock
    rw [hlook1]
    simp only [if_neg hcond]
  refine ⟨by rw [hred], ?_⟩
  rw [hred]
  unfold get_product_by_barcode
  have hro : ({ p with stok := p.stok + n } : Product).barcode_id == id := hbeq
  rw [hst1]
  simp only []
  rw [List.map_map]
  have hcomp : ∀ r : Product,
      ((((fun r : Product => if r.barcode_id == id then { r with stok := r.stok - n } else r) ∘
          (fun r : Product => if r.barcode_id == id then { r with stok := r.stok + n } else r)) r).barcode_id
        == id) = (r.barcode_id == id) := by
    intro r
    by_cases h : (r.barcode_id == id) = true
    · simp only [Function.comp_apply, if_pos h]
    · simp only [Function.comp_apply, if_neg h, if_neg h]
  rw [find?_map_pred _ _ _ hcomp, hp', Option.map_some']
  simp only [Function.comp_apply, if_pos hbeq, if_pos hro]
  have hstok : p.stok + n - n = p.stok := by omega
  rw [hstok]

/-- C4 witness: restocking 7 units onto a stock of 3 and then selling 7
returns the stock to 3. -/
theorem restock_sell_roundtrip_witness :
    get_product_by_barcode [⟨"BRK001", "Aqua", "Minuman", 3, 2000, 3000⟩] "BRK001" =
      some ⟨"BRK001", "Aqua", "Minuman", 3, 2000, 3000⟩ ∧
    (0 : Int) < 7 ∧ (0 : Int) ≤ 3 ∧
    ((reduce_stock (add_stock ⟨[⟨"BRK001", "Aqua", "Minuman", 3, 2000, 3000⟩], []⟩
        "BRK001" 7).state "BRK001" 7 ⟨0, 0⟩).outcome = OpOutcome.success ∧
      get_product_by_barcode
        (reduce_stock (add_stock ⟨[⟨"BRK001", "Aqua", "Minuman", 3, 2000, 3000⟩], []⟩
          "BRK001" 7).state "BRK001" 7 ⟨0, 0⟩).state.products "BRK001" =
        some ⟨"BRK001", "Aqua", "Minuman", 3, 2000, 3000⟩) :=
  ⟨by decide, by decide, by decide,
    restock_sell_roundtrip ⟨[⟨"BRK001", "Aqua", "Minuman", 3, 2000, 3000⟩], []⟩
      "BRK001" ⟨"BRK001", "Aqua", "Minuman", 3, 2000, 3000⟩ 7 ⟨0, 0⟩
      (by decide) (by decide) (by decide)⟩

/-- C5: `calculate_profit_margin` returns
`(sell_price - cost_price) / sell_price * 100` for every pair of inputs
(rational division by zero is 0, matching the guarded branch), and
returns exactly 0 when `sell_price = 0` — the division is guarded, never
an error. -/
theorem profit_margin_formula (harga_jual harga_modal : ℚ) :
    calculate_profit_margin harga_jual harga_modal =
      (harga_jual - harga_modal) / harga_jual * 100 ∧
    calculate_profit_margin 0 harga_modal = 0 := by
  constructor
  · unfold calculate_profit_margin
    by_cases h : harga_jual = 0
    · subst h
      simp
    · rw [if_neg h]
  · unfold calculate_profit_margin
    simp

/-- C6: with pairwise-distinct barcode keys (the primary-key invariant of
the product table), `low_stock` at threshold 10 contains a product if and
only if it is in the table with stock strictly below 10, and it contains
no product twice. -/
theorem low_stock_exact (ps : List Product) (p : Product)
    (hkeys : ps.Pairwise (fun a b => a.barcode_id ≠ b.barcode_id)) :
    (p ∈ low_stock ps 10 ↔ p ∈ ps ∧ p.stok < 10) ∧
    (low_stock ps 10).Nodup := by
  constructor
  · simp [low_stock, List.mem_filter]
  · have hsub : (low_stock ps 10).Pairwise (fun a b => a.barcode_id ≠ b.barcode_id) :=
      List.Pairwise.sublist (List.filter_sublist ps) hkeys
    exact hsub.imp (fun hab heq => hab (congrArg Product.barcode_id heq))

/-- C6 witness: a two-product table with one product below the
threshold. -/
theorem low_stock_exact_witness :
    ([⟨"BRK001", "Aqua", "Minuman", 3, 2000, 3000⟩,
      ⟨"BRK002", "Roti", "Makanan", 25, 3000, 4000⟩] :
        List Product).Pairwise (fun a b => a.barcode_id ≠ b.barcode_id) ∧
    ((⟨"BRK001", "Aqua", "Minuman", 3, 2000, 3000⟩ ∈
        low_stock [⟨"BRK001", "Aqua", "Minuman", 3, 2000, 3000⟩,
          ⟨"BRK002", "Roti", "Makanan", 25, 3000, 4000⟩] 10 ↔
      (⟨"BRK001", "Aqua", "Minuman", 3, 2000, 3000⟩ : Product) ∈
        [⟨"BRK001", "Aqua", "Minuman", 3, 2000, 3000⟩,
          ⟨"BRK002", "Roti", "Makanan", 25, 3000, 4000⟩] ∧
      (⟨"BRK001", "Aqua", "Minuman", 3, 2000, 3000⟩ : Product).stok < 10) ∧
    (low_stock [⟨"BRK001", "Aqua", "Minuman", 3, 2000, 3000⟩,
      ⟨"BRK002", "Roti", "Makanan", 25, 3000, 4000⟩] 10).Nodup) :=
  ⟨by decide,
    low_stock_exact [⟨"BRK001", "Aqua", "Minuman", 3, 2000, 3000⟩,
      ⟨"BRK002", "Roti", "Makanan", 25, 3000, 4000⟩]
      ⟨"BRK001", "Aqua", "Minuman", 3, 2000, 3000⟩ (by decide)⟩

/-- C7: for dates `a ≤ b`, `filter_by_date_range` keeps exactly the
transactions whose date component lies between `a` and `b` inclusive on
both ends, and replacing the time-of-day component of a transaction's
timestamp does not change whether it is kept. -/
theorem filter_by_date_range_inclusive (ts : List Transaction) (t : Transaction)
    (j : Nat) (a b : Int) (_hab : a ≤ b) :
    (t ∈ filter_by_date_range ts a b ↔
      t ∈ ts ∧ a ≤ t.waktu.tanggal ∧ t.waktu.tanggal ≤ b) ∧
    (set_jam t j ∈ filter_by_date_range [set_jam t j] a b ↔
      t ∈ filter_by_date_range [t] a b) := by
  constructor
  · simp [filter_by_date_range, List.mem_filter, and_assoc]
  · simp [filter_by_date_range, List.mem_filter, set_jam]

/-- C7 witness: a boundary transaction dated on the start date of the
range is kept, and stays kept after its time-of-day changes. -/
theorem filter_by_date_range_inclusive_witness :
    (10 : Int) ≤ 17 ∧
    (((⟨"BRK001", "Aqua", 5, 3000, 15000, 5000, ⟨10, 0⟩⟩ : Transaction) ∈
        filter_by_date_range [⟨"BRK001", "Aqua", 5, 3000, 15000, 5000, ⟨10, 0⟩⟩] 10 17 ↔
      (⟨"BRK001", "Aqua", 5, 3000, 15000, 5000, ⟨10, 0⟩⟩ : Transaction) ∈
          [⟨"BRK001", "Aqua", 5, 3000, 15000, 5000, ⟨10, 0⟩⟩] ∧
        (10 : Int) ≤ (⟨"BRK001", "Aqua", 5, 3000, 15000, 5000, ⟨10, 0⟩⟩ :
          Transaction).waktu.tanggal ∧
        (⟨"BRK001", "Aqua", 5, 3000, 15000, 5000, ⟨10, 0⟩⟩ :
          Transaction).waktu.tanggal ≤ 17) ∧
    (set_jam ⟨"BRK001", "Aqua", 5, 3000, 15000, 5000, ⟨10, 0⟩⟩ 23 ∈
        filter_by_date_range
          [set_jam ⟨"BRK001", "Aqua", 5, 3000, 15000, 5000, ⟨10, 0⟩⟩ 23] 10 17 ↔
      (⟨"BRK001", "Aqua", 5, 3000, 15000, 5000, ⟨10, 0⟩⟩ : Transaction) ∈
        filter_by_date_range [⟨"BRK001", "Aqua", 5, 3000, 15000, 5000, ⟨10, 0⟩⟩] 10 17)) :=
  ⟨by decide,
    filter_by_date_range_inclusive [⟨"BRK001", "Aqua", 5, 3000, 15000, 5000, ⟨10, 0⟩⟩]
      ⟨"BRK001", "Aqua", 5, 3000, 15000, 5000, ⟨10, 0⟩⟩ 23 10 17 (by decide)⟩

/-- C8: for either table kind, `load` on a missing backing file returns
an empty table whose columns are the schema of that kind, and does not
fail. -/
theorem load_missing_file_empty_table (kind : TableKind) :
    load kind FileState.missing = Except.ok ⟨schema_columns kind, []⟩ := by
  cases kind <;> rfl

/-- C9: the state reached by the add-product submit flow and its
success / failure outcome are the same for every barcode artifact
generator — present and succeeding, present and failing (`None`), or
absent (the dummy fallback, `fun _ _ => none`); the generator's return
value only feeds the display component. -/
theorem submit_independent_of_generator
    (gen1 gen2 : String → String → Option String) (st : State)
    (id nama kategori : String) (stok harga_modal harga_jual : Int) :
    (data_master_submit gen1 st id nama kategori stok harga_modal harga_jual).1 =
      (data_master_submit gen2 st id nama kategori stok harga_modal harga_jual).1 ∧
    (data_master_submit gen1 st id nama kategori stok harga_modal harga_jual).2.1 =
      (data_master_submit gen2 st id nama kategori stok harga_modal harga_jual).2.1 := by
  unfold data_master_submit
  rcases hadd : add_product st id nama kategori stok harga_modal harga_jual with ⟨st2, o⟩
  by_cases h : (validate_not_empty id && validate_not_empty nama) = true
  · simp only [if_pos h]
    by_cases h2 : harga_jual ≤ harga_modal
    · simp only [if_pos h2]
      exact ⟨trivial, trivial⟩
    · simp only [if_neg h2, hadd]
      cases o <;> exact ⟨rfl, rfl⟩
  · simp only [if_neg h]
    exact ⟨trivial, trivial⟩

/-- C10: `validate_barcode_format` accepts a string exactly when it has
at least 3 characters and contains no space; on Python `None` or a
number, where `len` would raise, it returns `False` instead of
raising. -/
theorem validate_barcode_format_spec (s : String) (n : Int) :
    (validate_barcode_format (PyValue.str s) = true ↔
      3 ≤ s.data.length ∧ ' ' ∉ s.data) ∧
    validate_barcode_format PyValue.pyNone = false ∧
    validate_barcode_format (PyValue.num n) = false := by
  refine ⟨?_, rfl, rfl⟩
  show (if s.data.length < 3 then false
    else if ' ' ∈ s.data then false else true) = true ↔ 3 ≤ s.data.length ∧ ' ' ∉ s.data
  by_cases h1 : s.data.length < 3
  · rw [if_pos h1]
    exact iff_of_false Bool.false_ne_true (fun hc => absurd hc.1 (by omega))
  · rw [if_neg h1]
    by_cases h2 : ' ' ∈ s.data
    · rw [if_pos h2]
      exact iff_of_false Bool.false_ne_true (fun hc => hc.2 h2)
    · rw [if_neg h2]
      exact iff_of_true rfl ⟨by omega, h2⟩

end Kantin
